import Mathlib

/-!
# Verification of the supabase-ts-rest HTTP client

Shallow embedding of the repository's client implementations and proofs
about their request/response contract.

The repository contains several near-duplicate client implementations:

* `ClientIndex` — the function-based client `createSupabaseClient` in
  `src/client/index.ts` (compiled form in `dist/client/index.js`), whose
  core primitive is `request(method, endpoint, body?, queryParams?)` and
  whose auth primitive is `auth(endpoint, payload)`.
* `DistClient` — the legacy class-based client `SupabaseClient` in
  `dist/client.js`, whose core primitive is
  `doRequest(method, endpoint, queryParams?, body?)` with a try/catch
  wrapping transport failures.
* `SupabaseClientJs` — the function-based client in
  `dist/client/SupabaseClient.js`, identical to `ClientIndex` except that
  its primitive takes `(method, endpoint, queryParams?, body?)`.

The HTTP transport (`fetch`) and the host JSON parser (`JSON.parse` /
`Response.json`) are external collaborators supplied by the runtime; the
embedding takes them as explicit oracles (`FetchOutcome` and a
`String → Option Json` parse function) and models everything the
repository's own code does around them.
-/

/-- JSON values, the value domain of `JSON.parse` / `JSON.stringify`.
Numbers are modelled as integers (all numbers appearing in this
repository's payloads and fixtures are integral). -/
inductive Json where
  | null : Json
  | bool : Bool → Json
  | num : Int → Json
  | str : String → Json
  | arr : List Json → Json
  | obj : List (String × Json) → Json
deriving Repr

/-- Lower-case hexadecimal digit for `n < 16`. -/
def hexDigitChar (n : Nat) : Char :=
  if n < 10 then Char.ofNat (48 + n) else Char.ofNat (87 + n)

/-- Upper-case hexadecimal digit for `n < 16`. -/
def hexDigitCharUpper (n : Nat) : Char :=
  if n < 10 then Char.ofNat (48 + n) else Char.ofNat (55 + n)

/-- UTF-8 encoding of a Unicode code point, as byte values. -/
def utf8Bytes (n : Nat) : List Nat :=
  if n < 0x80 then [n]
  else if n < 0x800 then [0xC0 + n / 64, 0x80 + n % 64]
  else if n < 0x10000 then [0xE0 + n / 4096, 0x80 + (n / 64) % 64, 0x80 + n % 64]
  else [0xF0 + n / 262144, 0x80 + (n / 4096) % 64, 0x80 + (n / 64) % 64, 0x80 + n % 64]

/-- `%XX` escape (upper-case hex, as produced by the URL APIs) of one byte. -/
def byteToPercent (b : Nat) : String :=
  "%" ++ String.singleton (hexDigitCharUpper (b / 16)) ++ String.singleton (hexDigitCharUpper (b % 16))

/-- Characters left unencoded by `URLSearchParams` serialization
(`application/x-www-form-urlencoded`): ASCII alphanumerics and `*-._`. -/
def formUnreserved (c : Char) : Bool :=
  (65 ≤ c.toNat && c.toNat ≤ 90) || (97 ≤ c.toNat && c.toNat ≤ 122) ||
    (48 ≤ c.toNat && c.toNat ≤ 57) || ['*', '-', '.', '_'].contains c

/-- One character of `application/x-www-form-urlencoded` output:
space becomes `+`, unreserved characters pass through, everything else
is percent-encoded byte by byte. -/
def formEncodeChar (c : Char) : String :=
  if formUnreserved c then String.singleton c
  else if c = ' ' then "+"
  else String.join ((utf8Bytes c.toNat).map byteToPercent)

/-- `application/x-www-form-urlencoded` encoding of a string, the
encoding used by `URLSearchParams.toString()`. -/
def formEncode (s : String) : String :=
  String.join (s.data.map formEncodeChar)

/-- `new URLSearchParams(params).toString()`: `k1=v1&k2=v2` with both
keys and values form-encoded. -/
def urlSearchParamsToString (ps : List (String × String)) : String :=
  String.intercalate "&" (ps.map (fun p => formEncode p.1 ++ "=" ++ formEncode p.2))

/-- Characters left unencoded by `encodeURIComponent`:
ASCII alphanumerics and `-_.!~*'()`. -/
def uriComponentUnreserved (c : Char) : Bool :=
  (65 ≤ c.toNat && c.toNat ≤ 90) || (97 ≤ c.toNat && c.toNat ≤ 122) ||
    (48 ≤ c.toNat && c.toNat ≤ 57) ||
    ['-', '_', '.', '!', '~', '*', Char.ofNat 39, '(', ')'].contains c

/-- The host `encodeURIComponent` function. -/
def encodeURIComponent (s : String) : String :=
  String.join (s.data.map (fun c =>
    if uriComponentUnreserved c then String.singleton c
    else String.join ((utf8Bytes c.toNat).map byteToPercent)))

/-- JSON string escaping as performed by `JSON.stringify`. -/
def jsonEscapeChar (c : Char) : String :=
  if c = '"' then "\\\""
  else if c = '\\' then "\\\\"
  else if c = '\n' then "\\n"
  else if c = '\r' then "\\r"
  else if c = '\t' then "\\t"
  else if c.toNat < 32 then
    "\\u00" ++ String.singleton (hexDigitChar (c.toNat / 16)) ++
      String.singleton (hexDigitChar (c.toNat % 16))
  else String.singleton c

/-- JSON escaping of a whole string body. -/
def jsonEscape (s : String) : String :=
  String.join (s.data.map jsonEscapeChar)

mutual

/-- The host `JSON.stringify` on the `Json` value domain. -/
def Json.stringify : Json → String
  | .null => "null"
  | .bool true => "true"
  | .bool false => "false"
  | .num n => toString n
  | .str s => "\"" ++ jsonEscape s ++ "\""
  | .arr xs => "[" ++ Json.stringifyItems xs ++ "]"
  | .obj fs => "\x7b" ++ Json.stringifyFields fs ++ "\x7d"

/-- Comma-separated serialization of array elements. -/
def Json.stringifyItems : List Json → String
  | [] => ""
  | [v] => Json.stringify v
  | v :: vs => Json.stringify v ++ "," ++ Json.stringifyItems vs

/-- Comma-separated serialization of object fields. -/
def Json.stringifyFields : List (String × Json) → String
  | [] => ""
  | [(k, v)] => "\"" ++ jsonEscape k ++ "\":" ++ Json.stringify v
  | (k, v) :: fs =>
    "\"" ++ jsonEscape k ++ "\":" ++ Json.stringify v ++ "," ++ Json.stringifyFields fs

end

/-- JavaScript truthiness of a JSON value (`null`, `false`, `0` and `""`
are falsy; arrays and objects are always truthy). -/
def Json.truthy : Json → Bool
  | .null => false
  | .bool b => b
  | .num n => n != 0
  | .str s => s != ""
  | .arr _ => true
  | .obj _ => true

/-- The `SupabaseError` class from `src/types` / `dist/types`:
`constructor(message, statusCode?, response?)`. The `response` field is
`unknown`: it holds the raw body text for HTTP failures and the original
cause for wrapped transport failures. -/
inductive ErrValue where
  | text : String → ErrValue
  | exn : String → ErrValue
deriving Repr, DecidableEq

/-- The client's single structured error type. -/
structure SupabaseError where
  message : String
  statusCode : Option Nat := none
  response : Option ErrValue := none
deriving Repr, DecidableEq

/-- A value thrown by JavaScript code: either the client's own
`SupabaseError` or some other host exception (identified by its
message), e.g. the `TypeError` thrown by a failing `fetch`. -/
inductive Thrown where
  | supabaseErr : SupabaseError → Thrown
  | jsErr : String → Thrown
deriving Repr, DecidableEq

/-- The observable outcome of one `fetch` call: either a settled
`Response` with a status and a body text, or a transport-level
rejection. -/
inductive FetchOutcome where
  | ok : Nat → String → FetchOutcome
  | fail : Thrown → FetchOutcome

/-- Result of one client request: the promise resolves with a value or
rejects with a thrown exception. -/
inductive ReqResult where
  | ok : Json → ReqResult
  | thrown : Thrown → ReqResult

/-- `Response.ok`: status in the inclusive range 200–299. -/
def statusOk (status : Nat) : Bool :=
  200 ≤ status && status ≤ 299

/-- JavaScript `token || apiKey`: an absent or empty token falls back to
the right-hand side. -/
def jsOr (token : Option String) (fallback : String) : String :=
  match token with
  | none => fallback
  | some s => if s = "" then fallback else s

/-- What one outgoing HTTP request looks like on the wire: the arguments
the client hands to `fetch`. -/
structure RequestSpec where
  method : String
  url : String
  headers : List (String × String)
  body : Option String
deriving Repr, DecidableEq

/-- The client's configuration object. `baseUrl` and `apiKey` are
declared `string` in TypeScript but a JavaScript caller can omit them,
so they are modelled as `Option String` with `none` for `undefined`. -/
structure ClientConfig where
  baseUrl : Option String
  apiKey : Option String
  token : Option String

/-- JavaScript falsiness of an optional string (`undefined` or `""`). -/
def jsFalsyOpt : Option String → Bool
  | none => true
  | some s => s = ""

/-- The three captured configuration fields of a constructed client
(`let baseUrl = ...; let apiKey = ...; let token = ...`). -/
structure ClientState where
  baseUrl : String
  apiKey : String
  token : Option String
deriving Repr, DecidableEq

/-- JavaScript `s.startsWith(pre)` as an executable prefix check on the
character lists. -/
def isPrefixList : List Char → List Char → Bool
  | [], _ => true
  | _ :: _, [] => false
  | a :: as, b :: bs => a == b && isPrefixList as bs

/-- JavaScript `s.startsWith(pre)`. -/
def strStartsWith (s pre : String) : Bool :=
  isPrefixList pre.data s.data

/-- Substring search: does `needle` occur in the haystack? -/
def containsList (needle : List Char) : List Char → Bool
  | [] => isPrefixList needle []
  | b :: bs => isPrefixList needle (b :: bs) || containsList needle bs

/-- JavaScript `hay.includes(needle)` for strings. -/
def strContains (hay needle : String) : Bool :=
  containsList needle.data hay.data

/-- JavaScript `s.includes(c)` for a single character
(`url.includes('?')` in the request primitives). -/
def strContainsChar (s : String) (c : Char) : Bool :=
  s.data.contains c

/-- Does the string contain two consecutive slashes? -/
def hasDoubleSlash (s : String) : Bool :=
  go s.data
where
  /-- scan the character list for `//`. -/
  go : List Char → Bool
    | '/' :: '/' :: _ => true
    | _ :: rest => go rest
    | [] => false

/-- Constant `REST_API_PATH` from `src/utils/constants/index.ts`. -/
def REST_API_PATH : String := "/rest/v1"

/-- Constant `AUTH_API_PATH` from `src/utils/constants/index.ts`. -/
def AUTH_API_PATH : String := "/auth/v1"

/-- Constant `TOKEN_API_PATH` from `src/utils/constants/index.ts`. -/
def TOKEN_API_PATH : String := AUTH_API_PATH ++ "/token"

/-- Constant `SIGNUP_API_PATH` from `src/utils/constants/index.ts`. -/
def SIGNUP_API_PATH : String := AUTH_API_PATH ++ "/signup"

namespace ERROR_MESSAGES

/-- `ERROR_MESSAGES.REQUEST_FAILED` from the constants table. -/
def REQUEST_FAILED : String := "Request failed"

/-- `ERROR_MESSAGES.INVALID_CONFIG` from the constants table. -/
def INVALID_CONFIG : String := "Invalid client configuration"

/-- `ERROR_MESSAGES.NETWORK_ERROR` from the constants table. -/
def NETWORK_ERROR : String := "Network error occurred"

end ERROR_MESSAGES

/-- The standard header object built identically by `request`, `auth`
(src/client/index.ts) and `doRequest`/`authRequest`
(dist/client/SupabaseClient.js):
`{ apikey, Authorization: Bearer (token || apiKey), Content-Type }`. -/
def stdHeaders (st : ClientState) : List (String × String) :=
  [("apikey", st.apiKey),
   ("Authorization", "Bearer " ++ jsOr st.token st.apiKey),
   ("Content-Type", "application/json")]

/-- URL construction shared verbatim by `request` and `auth` in
`src/client/index.ts` (and by `doRequest` in
`dist/client/SupabaseClient.js` / `dist/client/index.js`):
`endpoint.startsWith('http') ? endpoint : baseUrl + '/' + endpoint`,
then append serialized query parameters with `?` or `&`. -/
def buildUrl (baseUrl endpoint : String)
    (queryParams : Option (List (String × String))) : String :=
  let url := if strStartsWith endpoint "http" then endpoint
             else baseUrl ++ "/" ++ endpoint
  match queryParams with
  | some ps =>
    if ps.length > 0 then
      url ++ (if strContainsChar url '?' then "&" else "?") ++
        urlSearchParamsToString ps
    else url
  | none => url

namespace ClientIndex

/-- `createSupabaseClient` validation and captured state, from
`src/client/index.ts`: `if (!config.baseUrl || !config.apiKey) throw new
SupabaseError(ERROR_MESSAGES.INVALID_CONFIG)`, else the three fields are
captured. The thrown path is the `Except.error` branch; no partial
client value exists in that case, and construction performs no fetch. -/
def createSupabaseClient (config : ClientConfig) :
    Except SupabaseError ClientState :=
  if jsFalsyOpt config.baseUrl || jsFalsyOpt config.apiKey then
    .error { message := ERROR_MESSAGES.INVALID_CONFIG }
  else
    .ok { baseUrl := config.baseUrl.getD "",
          apiKey := config.apiKey.getD "",
          token := config.token }

/-- `setToken: (newToken) => { token = newToken }`. -/
def setToken (st : ClientState) (newToken : String) : ClientState :=
  { st with token := some newToken }

/-- `getToken: () => token`. -/
def getToken (st : ClientState) : Option String :=
  st.token

/-- The request that `request(method, endpoint, body?, queryParams?)`
hands to `fetch`: URL from `buildUrl`, the standard headers, and
`JSON.stringify(body)` when a body is given. -/
def request.build (st : ClientState) (method endpoint : String)
    (body : Option Json) (queryParams : Option (List (String × String))) :
    RequestSpec :=
  { method := method
    url := buildUrl st.baseUrl endpoint queryParams
    headers := stdHeaders st
    body := body.map Json.stringify }

/-- Response processing of `request`: on a non-ok status throw
`SupabaseError` with the composed message (and no statusCode/response
arguments); otherwise return `{}` for an empty body, the parsed JSON,
or the raw text when parsing fails. There is no try/catch around
`fetch`, so a transport rejection propagates unchanged. -/
def request.handle (outcome : FetchOutcome)
    (parse : String → Option Json) : ReqResult :=
  match outcome with
  | .fail e => .thrown e
  | .ok status text =>
    if !statusOk status then
      .thrown (.supabaseErr
        { message := "Request failed: " ++ toString status ++ " " ++ text })
    else if text = "" then .ok (Json.obj [])
    else
      match parse text with
      | some v => .ok v
      | none => .ok (Json.str text)

/-- `request` end to end: build the request, give it to the transport,
process the outcome. -/
def request (st : ClientState) (fetchFn : RequestSpec → FetchOutcome)
    (parse : String → Option Json) (method endpoint : String)
    (body : Option Json) (queryParams : Option (List (String × String))) :
    ReqResult :=
  request.handle (fetchFn (request.build st method endpoint body queryParams)) parse

/-- The request that `auth(endpoint, payload)` hands to `fetch`: always
POST, same URL construction (no query-parameter branch), same headers,
payload always serialized. -/
def auth.build (st : ClientState) (endpoint : String) (payload : Json) :
    RequestSpec :=
  { method := "POST"
    url := if strStartsWith endpoint "http" then endpoint
           else st.baseUrl ++ "/" ++ endpoint
    headers := stdHeaders st
    body := some (Json.stringify payload) }

/-- Response processing of `auth`: on a non-ok status throw
`SupabaseError` with the composed message; otherwise
`response.json()` — strict parsing whose failure rejects with the
host's parse exception, not the client's error type. -/
def auth.handle (outcome : FetchOutcome)
    (parse : String → Option Json) : ReqResult :=
  match outcome with
  | .fail e => .thrown e
  | .ok status text =>
    if !statusOk status then
      .thrown (.supabaseErr
        { message := "Auth request failed: " ++ toString status ++ " " ++ text })
    else
      match parse text with
      | some v => .ok v
      | none => .thrown (.jsErr "SyntaxError: unexpected token in JSON")

/-- `auth` end to end. -/
def auth (st : ClientState) (fetchFn : RequestSpec → FetchOutcome)
    (parse : String → Option Json) (endpoint : String) (payload : Json) :
    ReqResult :=
  auth.handle (fetchFn (auth.build st endpoint payload)) parse

/-- `signIn`'s fixed path: `` `${TOKEN_API_PATH}?grant_type=password` ``. -/
def signIn.path : String := TOKEN_API_PATH ++ "?grant_type=password"

/-- `signIn`'s payload `{ email, password }`. -/
def signIn.payload (email password : String) : Json :=
  Json.obj [("email", Json.str email), ("password", Json.str password)]

/-- The request `signIn(email, password)` sends: one `auth` call. -/
def signIn.build (st : ClientState) (email password : String) : RequestSpec :=
  auth.build st signIn.path (signIn.payload email password)

/-- `signIn(email, password)` end to end: exactly one `auth` call on the
token path. -/
def signIn (st : ClientState) (fetchFn : RequestSpec → FetchOutcome)
    (parse : String → Option Json) (email password : String) : ReqResult :=
  auth st fetchFn parse signIn.path (signIn.payload email password)

/-- The request `put(endpoint, primaryKeyName, primaryKeyValue, data)`
sends: `request('PUT', endpoint, data, { [primaryKeyName]:
primaryKeyValue })` — the filter rides in the query-parameter slot. -/
def put.build (st : ClientState)
    (endpoint primaryKeyName primaryKeyValue : String) (data : Json) :
    RequestSpec :=
  request.build st "PUT" endpoint (some data)
    (some [(primaryKeyName, primaryKeyValue)])

/-- The request `del(endpoint, primaryKeyName, primaryKeyValue)` sends:
the source is `request('DELETE', endpoint, queryParams)`, and `request`'s
third positional parameter is `body`, so the single-entry filter object
is passed as the body and the `queryParams` parameter stays
`undefined`. -/
def del.build (st : ClientState)
    (endpoint primaryKeyName primaryKeyValue : String) : RequestSpec :=
  request.build st "DELETE" endpoint
    (some (Json.obj [(primaryKeyName, Json.str primaryKeyValue)])) none

/-- The facade's `delete` member: `get delete() { return this.del }`
(and `delete: restMethods.del` in `dist/client/index.js`) — the very
same function as `del`. -/
def deleteMethod.build : ClientState → String → String → String → RequestSpec :=
  del.build

end ClientIndex

namespace DistClient

/-- `SupabaseClient` constructor from `dist/client.js`: same validation
as `ClientIndex.createSupabaseClient`, then the three fields are stored
on the instance. -/
def constructor (config : ClientConfig) : Except SupabaseError ClientState :=
  if jsFalsyOpt config.baseUrl || jsFalsyOpt config.apiKey then
    .error { message := ERROR_MESSAGES.INVALID_CONFIG }
  else
    .ok { baseUrl := config.baseUrl.getD "",
          apiKey := config.apiKey.getD "",
          token := config.token }

/-- `formatQueryParams` from `dist/client.js`: every filter value gets
the `eq.` operator prefix and is passed through `encodeURIComponent`. -/
def formatQueryParams (params : List (String × String)) :
    List (String × String) :=
  params.map (fun p => (p.1, "eq." ++ encodeURIComponent p.2))

/-- Endpoint normalization in `doRequest`:
`endpoint.replace(/^\//, '')` — strip one leading slash. -/
def doRequest.cleanEndpoint (endpoint : String) : String :=
  if strStartsWith endpoint "/" then endpoint.drop 1 else endpoint

/-- URL construction in `doRequest`:
`` `${this.baseUrl}${REST_API_PATH}/${cleanEndpoint}` `` and, when query
parameters are present, append the `eq.`-formatted parameters via the
`URL` object. There is no absolute-URL passthrough in this variant. -/
def doRequest.buildUrl (st : ClientState) (endpoint : String)
    (queryParams : Option (List (String × String))) : String :=
  let url := st.baseUrl ++ REST_API_PATH ++ "/" ++ doRequest.cleanEndpoint endpoint
  match queryParams with
  | some ps =>
    if ps.length > 0 then
      url ++ "?" ++ urlSearchParamsToString (formatQueryParams ps)
    else url
  | none => url

/-- Header construction in `doRequest`: `apikey` and `Content-Type`
always; `Authorization` only when `this.token` is truthy, reusing the
token verbatim when it already begins with `"Bearer "`. There is no
fallback to the API key. -/
def headers (st : ClientState) : List (String × String) :=
  let base := [("apikey", st.apiKey), ("Content-Type", "application/json")]
  match st.token with
  | none => base
  | some t =>
    if t = "" then base
    else
      base ++ [("Authorization",
        if strStartsWith t "Bearer " then t else "Bearer " ++ t)]

/-- The request `doRequest(method, endpoint, queryParams?, body?)` hands
to `fetch`; the body is attached only when truthy and the method is one
of POST/PUT/PATCH. -/
def doRequest.build (st : ClientState) (method endpoint : String)
    (queryParams : Option (List (String × String))) (body : Option Json) :
    RequestSpec :=
  { method := method
    url := doRequest.buildUrl st endpoint queryParams
    headers := headers st
    body :=
      match body with
      | some b =>
        if b.truthy && ["POST", "PUT", "PATCH"].contains method then
          some (Json.stringify b)
        else none
      | none => none }

/-- Response processing of `doRequest`, including the `try/catch`: a
non-ok status throws `SupabaseError(ERROR_MESSAGES.REQUEST_FAILED,
response.status, errorText)`; a success parses leniently as in
`ClientIndex.request`; the `catch` re-throws a `SupabaseError` unchanged
(`instanceof` guard) and wraps every other exception as
`SupabaseError(ERROR_MESSAGES.NETWORK_ERROR, undefined, error)`. -/
def doRequest.handle (outcome : FetchOutcome)
    (parse : String → Option Json) : ReqResult :=
  let inner : ReqResult :=
    match outcome with
    | .fail e => .thrown e
    | .ok status text =>
      if !statusOk status then
        .thrown (.supabaseErr
          { message := ERROR_MESSAGES.REQUEST_FAILED
            statusCode := some status
            response := some (.text text) })
      else if text = "" then .ok (Json.obj [])
      else
        match parse text with
        | some v => .ok v
        | none => .ok (Json.str text)
  match inner with
  | .thrown (.supabaseErr e) => .thrown (.supabaseErr e)
  | .thrown (.jsErr m) =>
    .thrown (.supabaseErr
      { message := ERROR_MESSAGES.NETWORK_ERROR
        statusCode := none
        response := some (.exn m) })
  | r => r

/-- `doRequest` end to end. -/
def doRequest (st : ClientState) (fetchFn : RequestSpec → FetchOutcome)
    (parse : String → Option Json) (method endpoint : String)
    (queryParams : Option (List (String × String))) (body : Option Json) :
    ReqResult :=
  doRequest.handle (fetchFn (doRequest.build st method endpoint queryParams body)) parse

/-- `delete(endpoint, primaryKeyName, primaryKeyValue)` in
`dist/client.js`: `doRequest('DELETE', endpoint, { [primaryKeyName]:
primaryKeyValue })` — the filter rides in the query-parameter slot. -/
def delete.build (st : ClientState)
    (endpoint primaryKeyName primaryKeyValue : String) : RequestSpec :=
  doRequest.build st "DELETE" endpoint
    (some [(primaryKeyName, primaryKeyValue)]) none

end DistClient

namespace SupabaseClientJs

/-- The request `doRequest(method, endpoint, queryParams?, body?)` from
`dist/client/SupabaseClient.js` hands to `fetch`: same URL, header and
body construction as `ClientIndex.request`, only the parameter order
differs. -/
def doRequest.build (st : ClientState) (method endpoint : String)
    (queryParams : Option (List (String × String))) (body : Option Json) :
    RequestSpec :=
  { method := method
    url := buildUrl st.baseUrl endpoint queryParams
    headers := stdHeaders st
    body := body.map Json.stringify }

/-- `del(endpoint, primaryKeyName, primaryKeyValue)` in
`dist/client/SupabaseClient.js`: `doRequest('DELETE', endpoint,
queryParams)` — here the third positional parameter IS `queryParams`,
so the single-entry filter lands in the URL's query string. -/
def del.build (st : ClientState)
    (endpoint primaryKeyName primaryKeyValue : String) : RequestSpec :=
  doRequest.build st "DELETE" endpoint
    (some [(primaryKeyName, primaryKeyValue)]) none

/-- The facade's `delete` member in `dist/client/SupabaseClient.js`:
`delete: del` — the same function. -/
def deleteMethod.build : ClientState → String → String → String → RequestSpec :=
  del.build

end SupabaseClientJs

/-- A list is a prefix of itself followed by anything. -/
theorem isPrefixList_append (xs ys : List Char) : isPrefixList xs (xs ++ ys) = true := by
  induction xs with
  | nil => rfl
  | cons a as ih => simp [isPrefixList, ih]

/-- A prefix occurrence is an occurrence. -/
theorem containsList_of_isPrefixList (n h : List Char) (hp : isPrefixList n h = true) :
    containsList n h = true := by
  cases h with
  | nil => simpa [containsList] using hp
  | cons b bs => simp [containsList, hp]

/-- An occurrence in the second part of an append is an occurrence in
the whole. -/
theorem containsList_append_left (n a b : List Char) (hc : containsList n b = true) :
    containsList n (a ++ b) = true := by
  induction a with
  | nil => simpa using hc
  | cons x xs ih => simp [containsList, ih]

/-- `strContains` is preserved by prepending to the haystack. -/
theorem strContains_append_right (p s n : String) (h : strContains s n = true) :
    strContains (p ++ s) n = true := by
  unfold strContains at h ⊢
  rw [String.data_append]
  exact containsList_append_left _ _ _ h

/-- A string occurs in itself followed by anything. -/
theorem strContains_self_append (p r : String) : strContains (p ++ r) p = true := by
  unfold strContains
  rw [String.data_append]
  exact containsList_of_isPrefixList _ _ (isPrefixList_append _ _)

/-- C1 (amended): on a non-success HTTP status, the legacy class-based
client (`dist/client.js` `doRequest`) rejects with `SupabaseError`
carrying message "Request failed", `statusCode` equal to the numeric
status, and the raw body text in `response`; the function-based client
(`src/client/index.ts` `request`) instead rejects with `SupabaseError`
whose message is `"Request failed: <status> <text>"` — which contains
"Request failed" — and whose `statusCode` and `response` fields are
unset. -/
theorem C1_request_failed_amended (status : Nat) (text : String)
    (parse : String → Option Json) (h : statusOk status = false) :
    DistClient.doRequest.handle (.ok status text) parse =
      .thrown (.supabaseErr ⟨"Request failed", some status, some (.text text)⟩) ∧
    ClientIndex.request.handle (.ok status text) parse =
      .thrown (.supabaseErr
        ⟨"Request failed: " ++ toString status ++ " " ++ text, none, none⟩) ∧
    strContains ("Request failed: " ++ toString status ++ " " ++ text)
      "Request failed" = true := by
  refine ⟨?_, ?_, ?_⟩
  · simp [DistClient.doRequest.handle, h, ERROR_MESSAGES.REQUEST_FAILED]
  · simp [ClientIndex.request.handle, h]
  · have e1 : ("Request failed: " : String) = "Request failed" ++ ": " := rfl
    rw [e1, String.append_assoc, String.append_assoc]
    exact strContains_self_append _ _

/-- C1 counterexample: for a 400 response with body "Bad Request", the
function-based `request` rejects with an error whose `statusCode` field
is `none`, not 400 — the status appears only in the message, so the
claim that the error carries the numeric status in its `statusCode`
field fails on this client. -/
theorem C1_request_failed_cex :
    ClientIndex.request.handle (.ok 400 "Bad Request") (fun _ => none) =
      .thrown (.supabaseErr ⟨"Request failed: 400 Bad Request", none, none⟩) ∧
    (none : Option Nat) ≠ some 400 := ⟨rfl, by decide⟩

/-- C1 witness: the amended theorem applied at status 400 with body
"Bad Request" — the class-based client's rejection carries
`statusCode = 400` and the raw body. -/
theorem C1_request_failed_witness :
    statusOk 400 = false ∧
    DistClient.doRequest.handle (.ok 400 "Bad Request") (fun _ => none) =
      .thrown (.supabaseErr ⟨"Request failed", some 400, some (.text "Bad Request")⟩) :=
  ⟨rfl, (C1_request_failed_amended 400 "Bad Request" (fun _ => none) rfl).1⟩

/-- C2 (amended): the function-based request primitive uses an endpoint
beginning with "http" verbatim and joins any other endpoint as
`baseUrl + "/" + endpoint` unconditionally, so whenever the endpoint
itself begins with a slash — as every fixed auth path constant does —
the resulting URL contains a double slash. The legacy class-based
`doRequest` (`dist/client.js`) instead strips one leading slash from
the endpoint and always builds
`baseUrl + REST_API_PATH + "/" + cleanEndpoint`, with no absolute-URL
passthrough: even an endpoint that is a full `https://` URL still gets
`baseUrl + "/rest/v1/"` prepended. -/
theorem C2_join_amended (base endpoint : String) (st : ClientState) :
    (strStartsWith endpoint "http" = false →
      buildUrl base endpoint none = base ++ "/" ++ endpoint) ∧
    (strStartsWith endpoint "http" = true →
      buildUrl base endpoint none = endpoint) ∧
    buildUrl base SIGNUP_API_PATH none = base ++ "//auth/v1/signup" ∧
    (strStartsWith endpoint "/" = true →
      DistClient.doRequest.buildUrl st endpoint none =
        st.baseUrl ++ REST_API_PATH ++ "/" ++ endpoint.drop 1) ∧
    (strStartsWith endpoint "/" = false →
      DistClient.doRequest.buildUrl st endpoint none =
        st.baseUrl ++ REST_API_PATH ++ "/" ++ endpoint) ∧
    DistClient.doRequest.buildUrl st "https://other.example/x" none =
      st.baseUrl ++ REST_API_PATH ++ "/" ++ "https://other.example/x" := by
  refine ⟨fun h => by simp [buildUrl, h], fun h => by simp [buildUrl, h],
    ?_, fun h => ?_, fun h => ?_, ?_⟩
  · have h : strStartsWith SIGNUP_API_PATH "http" = false := by decide
    simp [buildUrl, h]
    rw [String.append_assoc]
    exact congrArg _ rfl
  · simp [DistClient.doRequest.buildUrl, DistClient.doRequest.cleanEndpoint, h]
  · simp [DistClient.doRequest.buildUrl, DistClient.doRequest.cleanEndpoint, h]
  · have h : strStartsWith "https://other.example/x" "/" = false := by decide
    simp [DistClient.doRequest.buildUrl, DistClient.doRequest.cleanEndpoint, h]

/-- C2 counterexample: joining the fixed signup path (which begins with
a slash) to a base URL produces `.../example.supabase.co//auth/v1/signup`
— a double slash after the authority, contradicting "never producing a
double slash, regardless of whether the endpoint begins with a
slash". -/
theorem C2_join_cex :
    buildUrl "https://example.supabase.co" SIGNUP_API_PATH none =
      "https://" ++ "example.supabase.co//auth/v1/signup" ∧
    hasDoubleSlash "example.supabase.co//auth/v1/signup" = true := ⟨rfl, by decide⟩

/-- C2 witness: the amended theorem applied concretely — the
function-based join of a relative table endpoint without a leading
slash has exactly one separating slash, and the legacy class-based
`doRequest` strips the leading slash of "/users" while prepending
`/rest/v1`. -/
theorem C2_join_witness :
    buildUrl "https://example.supabase.co" "users" none =
      "https://example.supabase.co/users" ∧
    DistClient.doRequest.buildUrl ⟨"https://example.supabase.co", "k", none⟩
      "/users" none = "https://example.supabase.co/rest/v1/users" :=
  ⟨((C2_join_amended "https://example.supabase.co" "users"
      ⟨"https://example.supabase.co", "k", none⟩).1 (by decide)).trans rfl,
   ((C2_join_amended "https://example.supabase.co" "/users"
      ⟨"https://example.supabase.co", "k", none⟩).2.2.2.1 (by decide)).trans rfl⟩

/-- C3 (amended): only the legacy class-based `doRequest` catches
transport exceptions — a non-`SupabaseError` transport rejection is
re-wrapped as `SupabaseError` with message "Network error occurred", no
status code, and the original cause in `response`, while a
`SupabaseError` raised inside the try block propagates unchanged (no
double wrapping). The function-based `request` has no transport
exception handling at all: whatever the transport throws propagates to
the caller unchanged. -/
theorem C3_transport_amended (parse : String → Option Json) (m : String)
    (e : SupabaseError) (t : Thrown) :
    DistClient.doRequest.handle (.fail (.jsErr m)) parse =
      .thrown (.supabaseErr ⟨"Network error occurred", none, some (.exn m)⟩) ∧
    DistClient.doRequest.handle (.fail (.supabaseErr e)) parse =
      .thrown (.supabaseErr e) ∧
    ClientIndex.request.handle (.fail t) parse = .thrown t := ⟨rfl, rfl, rfl⟩

/-- C3 counterexample: when `fetch` rejects with a host connection
error, the function-based `request` re-raises that host exception
itself — not the client's error type and without any network-error
message — so "the client catches the exception and re-raises it as its
own error type" fails on this client. -/
theorem C3_transport_cex :
    ClientIndex.request.handle (.fail (.jsErr "connect ECONNREFUSED")) (fun _ => none) =
      .thrown (.jsErr "connect ECONNREFUSED") ∧
    strContains "connect ECONNREFUSED" "Network error" = false := ⟨rfl, by decide⟩

/-- C4 (code bug): evaluating `del('users', 'id', '1')` on the
function-based client shows the single-entry filter being JSON-
serialized as the DELETE request body while the URL carries no query
string, because `del` passes the filter object as `request`'s third
positional parameter, which is `body`; the sibling implementation in
`dist/client/SupabaseClient.js` (whose third `doRequest` parameter is
`queryParams`) sends the same call with the filter in the URL and no
body, matching `put`'s filter placement. The `delete` alias is the
identical function in both. -/
theorem C4_del_eval :
    ClientIndex.del.build ⟨"https://example.supabase.co", "test_api_key", none⟩
      "users" "id" "1" =
      ⟨"DELETE", "https://example.supabase.co/users",
       [("apikey", "test_api_key"), ("Authorization", "Bearer test_api_key"),
        ("Content-Type", "application/json")],
       some "\x7b\"id\":\"1\"\x7d"⟩ ∧
    strContains "https://example.supabase.co/users" "id=1" = false ∧
    SupabaseClientJs.del.build ⟨"https://example.supabase.co", "test_api_key", none⟩
      "users" "id" "1" =
      ⟨"DELETE", "https://example.supabase.co/users?id=1",
       [("apikey", "test_api_key"), ("Authorization", "Bearer test_api_key"),
        ("Content-Type", "application/json")], none⟩ ∧
    ClientIndex.deleteMethod.build = ClientIndex.del.build :=
  ⟨rfl, by decide, rfl, rfl⟩

/-- C5 (confirmed): for every success-range status, both request
primitives resolve (never reject): with an empty body text they resolve
to the empty object; otherwise to the strict-JSON-parse result when
parsing succeeds, and to the raw text unchanged when it fails. -/
theorem C5_success_parse (status : Nat) (text : String)
    (parse : String → Option Json) (h : statusOk status = true) :
    ClientIndex.request.handle (.ok status text) parse =
      .ok (if text = "" then Json.obj []
           else match parse text with
                | some v => v
                | none => Json.str text) ∧
    DistClient.doRequest.handle (.ok status text) parse =
      .ok (if text = "" then Json.obj []
           else match parse text with
                | some v => v
                | none => Json.str text) := by
  by_cases ht : text = ""
  · simp [ClientIndex.request.handle, DistClient.doRequest.handle, h, ht]
  · cases hp : parse text <;>
      simp [ClientIndex.request.handle, DistClient.doRequest.handle, h, ht, hp]

/-- C5 witness: the theorem applied at status 204 with an empty body —
the spec's `del('users','id','1')` example — resolves to the empty
object, not an error. -/
theorem C5_success_parse_witness :
    statusOk 204 = true ∧
    ClientIndex.request.handle (.ok 204 "") (fun _ => none) = .ok (Json.obj []) :=
  ⟨rfl, by simpa using (C5_success_parse 204 "" (fun _ => none) rfl).1⟩

/-- C6 (amended): the function-based primitives always attach all three
headers, with `Authorization: Bearer <token || apiKey>` falling back to
the API key; the legacy class-based `doRequest` sends only `apikey` and
`Content-Type` when no token is set (no bearer fallback), and with a
token set it sends `Bearer <token>`, or the token verbatim when it
already begins with "Bearer ". -/
theorem C6_headers_amended (st : ClientState) (t : String) (hne : t ≠ "") :
    stdHeaders st =
      [("apikey", st.apiKey),
       ("Authorization", "Bearer " ++ jsOr st.token st.apiKey),
       ("Content-Type", "application/json")] ∧
    DistClient.headers { st with token := none } =
      [("apikey", st.apiKey), ("Content-Type", "application/json")] ∧
    (strStartsWith t "Bearer " = false →
      DistClient.headers { st with token := some t } =
        [("apikey", st.apiKey), ("Content-Type", "application/json"),
         ("Authorization", "Bearer " ++ t)]) ∧
    (strStartsWith t "Bearer " = true →
      DistClient.headers { st with token := some t } =
        [("apikey", st.apiKey), ("Content-Type", "application/json"),
         ("Authorization", t)]) := by
  refine ⟨rfl, rfl, fun h => ?_, fun h => ?_⟩ <;> simp [DistClient.headers, hne, h]

/-- C6 counterexample: an unauthenticated request through the legacy
class-based client carries no Authorization header at all — the claim
that every outgoing request presents a bearer value fails there. -/
theorem C6_headers_cex :
    DistClient.headers ⟨"https://example.supabase.co", "test_api_key", none⟩ =
      [("apikey", "test_api_key"), ("Content-Type", "application/json")] ∧
    (DistClient.headers ⟨"https://example.supabase.co", "test_api_key", none⟩).all
      (fun p => p.1 != "Authorization") = true := ⟨rfl, by decide⟩

/-- C6 witness: the amended theorem applied with token "abc" — the
class-based client then attaches `Authorization: Bearer abc`. -/
theorem C6_headers_witness :
    DistClient.headers ⟨"https://example.supabase.co", "test_api_key", some "abc"⟩ =
      [("apikey", "test_api_key"), ("Content-Type", "application/json"),
       ("Authorization", "Bearer abc")] :=
  (C6_headers_amended ⟨"https://example.supabase.co", "test_api_key", some "abc"⟩
    "abc" (by decide)).2.2.1 (by decide)

/-- C7 (confirmed): construction fails with a `SupabaseError` whose
message is exactly "Invalid client configuration" whenever `baseUrl` or
`apiKey` is absent or empty (no partial client value exists — the
`Except` is the error alternative, and the constructor performs no
fetch); with both non-empty it succeeds and `getToken` on the resulting
state returns the configured token, or `none` when none was given. -/
theorem C7_construction (config : ClientConfig) :
    ((jsFalsyOpt config.baseUrl || jsFalsyOpt config.apiKey) = true →
      ClientIndex.createSupabaseClient config =
        .error ⟨"Invalid client configuration", none, none⟩) ∧
    ((jsFalsyOpt config.baseUrl || jsFalsyOpt config.apiKey) = false →
      ClientIndex.createSupabaseClient config =
        .ok ⟨config.baseUrl.getD "", config.apiKey.getD "", config.token⟩ ∧
      ClientIndex.getToken
        ⟨config.baseUrl.getD "", config.apiKey.getD "", config.token⟩ =
          config.token) := by
  constructor <;> intro h <;>
    simp [ClientIndex.createSupabaseClient, h, ClientIndex.getToken,
      ERROR_MESSAGES.INVALID_CONFIG]

/-- C7 witness: the theorem applied to an empty `baseUrl` (construction
fails with the exact message) and to a fully valid configuration
(construction succeeds and the state holds the configured token). -/
theorem C7_construction_witness :
    ClientIndex.createSupabaseClient ⟨some "", some "key", none⟩ =
      .error ⟨"Invalid client configuration", none, none⟩ ∧
    ClientIndex.createSupabaseClient
        ⟨some "https://example.supabase.co", some "key", some "tok"⟩ =
      .ok ⟨"https://example.supabase.co", "key", some "tok"⟩ :=
  ⟨(C7_construction _).1 (by decide), by
    have h := (C7_construction
      ⟨some "https://example.supabase.co", some "key", some "tok"⟩).2 (by decide)
    simpa using h.1⟩

/-- C8 (confirmed): `signIn(email, password)` issues exactly one POST —
the single `auth` call modelled here — to the token path with
`grant_type=password` in the URL and `JSON.stringify({email, password})`
as the body, and on a success status whose body parses it resolves to
the parsed backend object itself, unchanged (so `access_token`,
`token_type`, `expires_in` and `refresh_token` pass through with no
renaming or dropping). -/
theorem C8_signIn (st : ClientState) (email password : String)
    (fetchFn : RequestSpec → FetchOutcome) (parse : String → Option Json)
    (status : Nat) (text : String) (v : Json)
    (hfetch : fetchFn (ClientIndex.signIn.build st email password) = .ok status text)
    (hok : statusOk status = true) (hparse : parse text = some v) :
    (ClientIndex.signIn.build st email password).method = "POST" ∧
    (ClientIndex.signIn.build st email password).url =
      st.baseUrl ++ "//auth/v1/token?grant_type=password" ∧
    strContains (ClientIndex.signIn.build st email password).url
      "grant_type=password" = true ∧
    (ClientIndex.signIn.build st email password).body =
      some (Json.stringify
        (Json.obj [("email", Json.str email), ("password", Json.str password)])) ∧
    ClientIndex.signIn st fetchFn parse email password = .ok v := by
  have hurl : (ClientIndex.signIn.build st email password).url =
      st.baseUrl ++ "//auth/v1/token?grant_type=password" := by
    have h : strStartsWith ClientIndex.signIn.path "http" = false := by decide
    simp [ClientIndex.signIn.build, ClientIndex.auth.build, h]
    rw [String.append_assoc]
    exact congrArg _ rfl
  refine ⟨rfl, hurl, ?_, rfl, ?_⟩
  · rw [hurl]
    exact strContains_append_right _ _ _ (by decide)
  · show ClientIndex.auth.handle
      (fetchFn (ClientIndex.signIn.build st email password)) parse = .ok v
    rw [hfetch]
    simp [ClientIndex.auth.handle, hok, hparse]

/-- C8 witness: the theorem applied to a concrete sign-in against a
transport answering 200 with a body that parses to the four-field token
object — `signIn` resolves to exactly that object. -/
theorem C8_signIn_witness :
    ClientIndex.signIn ⟨"https://example.supabase.co", "anon_key", none⟩
      (fun _ => .ok 200 "tokens")
      (fun s => if s = "tokens" then
        some (Json.obj [("access_token", Json.str "at"),
          ("token_type", Json.str "bearer"), ("expires_in", Json.num 3600),
          ("refresh_token", Json.str "rt")]) else none)
      "user@example.com" "password123" =
      .ok (Json.obj [("access_token", Json.str "at"),
        ("token_type", Json.str "bearer"), ("expires_in", Json.num 3600),
        ("refresh_token", Json.str "rt")]) :=
  (C8_signIn ⟨"https://example.supabase.co", "anon_key", none⟩
    "user@example.com" "password123" _ _ 200 "tokens" _ rfl rfl (by simp)).2.2.2.2

/-- C9 (confirmed, implicit): after `setToken("")`, `getToken()` returns
the empty string, yet the headers of every subsequent request fall back
to `Bearer <apiKey>` because `token || apiKey` treats the empty string
like an absent token — an empty token is never presented as the bearer
credential. -/
theorem C9_empty_token (st : ClientState) (method endpoint : String)
    (body : Option Json) (qp : Option (List (String × String))) :
    ClientIndex.getToken (ClientIndex.setToken st "") = some "" ∧
    (ClientIndex.request.build (ClientIndex.setToken st "") method endpoint
      body qp).headers =
      [("apikey", st.apiKey), ("Authorization", "Bearer " ++ st.apiKey),
       ("Content-Type", "application/json")] ∧
    jsOr (some "") st.apiKey = st.apiKey := ⟨rfl, rfl, rfl⟩

/-- C10 (confirmed, implicit): the absolute-URL test is the literal
four-character prefix check `endpoint.startsWith('http')` — any
endpoint beginning with "http", including the relative table name
"httpLogs", is used verbatim with `baseUrl` never prepended, while
every other endpoint is joined to `baseUrl`. -/
theorem C10_http_literal_check (baseUrl endpoint : String) :
    (strStartsWith endpoint "http" = true →
      buildUrl baseUrl endpoint none = endpoint) ∧
    (strStartsWith endpoint "http" = false →
      buildUrl baseUrl endpoint none = baseUrl ++ "/" ++ endpoint) ∧
    strStartsWith "httpLogs" "http" = true := by
  refine ⟨fun h => by simp [buildUrl, h], fun h => by simp [buildUrl, h], by decide⟩

/-- C10 witness: the theorem applied to the table name "httpLogs"
(used verbatim, base URL dropped) and to "pets" (joined to the base
URL). -/
theorem C10_http_literal_check_witness :
    buildUrl "https://example.supabase.co" "httpLogs" none = "httpLogs" ∧
    buildUrl "https://example.supabase.co" "pets" none =
      "https://example.supabase.co/pets" :=
  ⟨(C10_http_literal_check "https://example.supabase.co" "httpLogs").1 (by decide),
   ((C10_http_literal_check "https://example.supabase.co" "pets").2.1
     (by decide)).trans rfl⟩
